import Mathlib

/-!
Verification development for the VulnWebExtn LFI probing engine.

Shallow embedding of the core source functions:
* `detectLfiIndicators` — the regex signature table scan (source: popup,
  `detectLfiIndicators`), with JavaScript `RegExp.test` modelled by a
  Brzozowski-derivative matcher over `List Char`; the `/i` flag is modelled
  by lowercasing the body and writing the patterns in lowercase (all
  patterns are ASCII); `\s` is modelled on ASCII whitespace and `.` as
  any character other than a line terminator, matching the JS semantics
  on the ASCII inputs the signatures target.
* `analyzeLfiHeuristics` — the four-rule heuristic classifier, with the
  floating-point length-delta ratio modelled by exact rational arithmetic.
* `buildLfiPayloadList` — the categorized payload catalog.
* `runLfiScan` — the scan orchestrator (`handleRunLfi`), with the network
  modelled by a fetch oracle `Url → Option Response` (`none` = network
  failure / timeout), and WHATWG URLs modelled structurally as a base
  string plus an ordered query list with `URLSearchParams` set / append /
  get semantics. String lengths are code points (the sources are ASCII).
-/

namespace VulnWebExtn

/-! ## A small regular-expression matcher (Brzozowski derivatives) -/

/-- Regular expressions over characters; `cls` is a character class given
by a decidable predicate. -/
inductive Rx : Type where
  | emp : Rx
  | eps : Rx
  | cls : (Char → Bool) → Rx
  | cat : Rx → Rx → Rx
  | alt : Rx → Rx → Rx
  | star : Rx → Rx

/-- Whether the regular expression accepts the empty string. -/
def Rx.nullable : Rx → Bool
  | .emp => false
  | .eps => true
  | .cls _ => false
  | .cat a b => a.nullable && b.nullable
  | .alt a b => a.nullable || b.nullable
  | .star _ => true

/-- Brzozowski derivative with respect to one character. -/
def Rx.deriv : Rx → Char → Rx
  | .emp, _ => .emp
  | .eps, _ => .emp
  | .cls p, c => if p c then .eps else .emp
  | .cat a b, c =>
      if a.nullable then .alt (.cat (a.deriv c) b) (b.deriv c)
      else .cat (a.deriv c) b
  | .alt a b, c => .alt (a.deriv c) (b.deriv c)
  | .star a, c => .cat (a.deriv c) (.star a)

/-- Whether some prefix of the character list matches the expression
(a match starting at the current position). -/
def Rx.fromHere : Rx → List Char → Bool
  | r, [] => r.nullable
  | r, c :: cs => r.nullable || (r.deriv c).fromHere cs

/-- Whether the expression matches somewhere in the character list
(the semantics of JavaScript `regex.test` for an unanchored pattern). -/
def Rx.search : Rx → List Char → Bool
  | r, [] => r.nullable
  | r, c :: cs => r.fromHere (c :: cs) || r.search cs

/-- Whether the entire character list matches the expression
(used for patterns anchored by both `^` and `$`). -/
def Rx.mFull : Rx → List Char → Bool
  | r, [] => r.nullable
  | r, c :: cs => (r.deriv c).mFull cs

/-- Literal string pattern. -/
def litR (s : String) : Rx :=
  s.data.foldr (fun c r => .cat (.cls (fun d => d = c)) r) .eps

/-- Alternation of literal strings. -/
def altsR (l : List String) : Rx :=
  l.foldr (fun s r => .alt (litR s) r) .emp

/-- Digit class `[0-9]` (also the ASCII meaning of `\d`). -/
def digitC : Rx := .cls (fun c => decide ('0' ≤ c) && decide (c ≤ '9'))

/-- Whitespace class `\s`, modelled on ASCII whitespace. -/
def wsC : Rx :=
  .cls (fun c => c = ' ' || c = '\t' || c = '\n' || c = '\r' ||
    c = '\x0b' || c = '\x0c')

/-- The `.` metacharacter: any character except a line terminator. -/
def dotC : Rx :=
  .cls (fun c => !(c = '\n' || c = '\r' ||
    c = Char.ofNat 0x2028 || c = Char.ofNat 0x2029))

/-- One or more repetitions (`+`). -/
def plusR (r : Rx) : Rx := .cat r (.star r)

/-- Exactly `n` repetitions (`{n}`). -/
def repNR (r : Rx) : Nat → Rx
  | 0 => .eps
  | n + 1 => .cat r (repNR r n)

/-- At least `n` repetitions (`{n,}`). -/
def atLeastR (r : Rx) (n : Nat) : Rx := .cat (repNR r n) (.star r)

/-! ## The indicator signature table

Source: `detectLfiIndicators` in the popup. Each JS regex is written in
lowercase (the `/i` flag is modelled by lowercasing the scanned body). -/

/-- Pattern `/root:x:0:0:|:\/bin\/(bash|sh|csh|zsh)|daemon:x:/i`. -/
def sigEtcPasswd : Rx :=
  .alt (litR "root:x:0:0:")
    (.alt (.cat (litR ":/bin/") (altsR ["bash", "sh", "csh", "zsh"]))
      (litR "daemon:x:"))

/-- Pattern `/root:.*:1[0-9]{4,}:/i`. -/
def sigEtcShadow : Rx :=
  .cat (litR "root:")
    (.cat (.star dotC)
      (.cat (litR ":1") (.cat (atLeastR digitC 4) (litR ":"))))

/-- Pattern `/127\.0\.0\.1\s+localhost|::1\s+localhost/i`. -/
def sigUnixHosts : Rx :=
  .alt (.cat (litR "127.0.0.1") (.cat (plusR wsC) (litR "localhost")))
    (.cat (litR "::1") (.cat (plusR wsC) (litR "localhost")))

/-- Pattern `/PATH=|HOME=|SHELL=|USER=|PWD=/i`. -/
def sigProcEnviron : Rx :=
  altsR ["path=", "home=", "shell=", "user=", "pwd="]

/-- Pattern `/Linux version \d+\.\d+\.\d+/i`. -/
def sigProcVersion : Rx :=
  .cat (litR "linux version ")
    (.cat (plusR digitC)
      (.cat (litR ".")
        (.cat (plusR digitC) (.cat (litR ".") (plusR digitC)))))

/-- Pattern for Windows win.ini section markers. -/
def sigWinIni : Rx :=
  altsR ["[fonts]", "[extensions]", "[mci extensions]", "[drivers]",
    "for 16-bit app support"]

/-- Pattern `/\[boot loader\]|\[operating systems\]|multi\(0\)disk/i`. -/
def sigBootIni : Rx :=
  altsR ["[boot loader]", "[operating systems]", "multi(0)disk"]

/-- Pattern `/127\.0\.0\.1\s+localhost.*::1/i`. -/
def sigWinHosts : Rx :=
  .cat (litR "127.0.0.1")
    (.cat (plusR wsC)
      (.cat (litR "localhost") (.cat (.star dotC) (litR "::1"))))

/-- Pattern `/<\?php|<\?=|phpinfo\(\)|echo\s+\$_/i`. -/
def sigPhpSource : Rx :=
  .alt (litR "<?php")
    (.alt (litR "<?=")
      (.alt (litR "phpinfo()")
        (.cat (litR "echo") (.cat (plusR wsC) (litR "$_")))))

/-- Pattern `/<Directory|LoadModule|ServerRoot/i`. -/
def sigApacheConfig : Rx :=
  altsR ["<directory", "loadmodule", "serverroot"]

/-- Pattern `/Host \*|IdentityFile|UserKnownHostsFile/i`. -/
def sigSshConfig : Rx :=
  altsR ["host *", "identityfile", "userknownhostsfile"]

/-- Pattern `/\[mysqld\]|\[client\]|datadir=/i`. -/
def sigMysqlConfig : Rx :=
  altsR ["[mysqld]", "[client]", "datadir="]

/-- Test for `/^#\d{10}$|^ls\s|^cd\s|^cat\s/i`: every alternative is
anchored at the start of the input (no multiline flag), and the first is
also anchored at the end, so `test` succeeds only via a match at
position 0. -/
def bashHistoryTest (cs : List Char) : Bool :=
  (Rx.cat (litR "#") (repNR digitC 10)).mFull cs ||
  (Rx.cat (litR "ls") wsC).fromHere cs ||
  (Rx.cat (litR "cd") wsC).fromHere cs ||
  (Rx.cat (litR "cat") wsC).fromHere cs

/-- Pattern for PHP inclusion error disclosure. -/
def sigErrorDisclosure : Rx :=
  .alt (.cat (litR "warning:") (.cat (.star dotC) (litR "include")))
    (.alt (.cat (litR "failed opening") (.cat (.star dotC) (litR "for inclusion")))
      (litR "no such file or directory"))

/-- The fixed signature table of `detectLfiIndicators`, in declaration
order: label paired with the regex test over the lowercased body. -/
def lfiSignatures : List (String × (List Char → Bool)) :=
  [("etc/passwd", fun cs => sigEtcPasswd.search cs),
   ("etc/shadow", fun cs => sigEtcShadow.search cs),
   ("Unix hosts file", fun cs => sigUnixHosts.search cs),
   ("proc/environ", fun cs => sigProcEnviron.search cs),
   ("proc/version", fun cs => sigProcVersion.search cs),
   ("Windows win.ini", fun cs => sigWinIni.search cs),
   ("Windows boot.ini", fun cs => sigBootIni.search cs),
   ("Windows hosts", fun cs => sigWinHosts.search cs),
   ("PHP source", fun cs => sigPhpSource.search cs),
   ("Apache config", fun cs => sigApacheConfig.search cs),
   ("SSH config", fun cs => sigSshConfig.search cs),
   ("MySQL config", fun cs => sigMysqlConfig.search cs),
   ("Bash history", fun cs => bashHistoryTest cs),
   ("Error disclosure", fun cs => sigErrorDisclosure.search cs)]

/-- The accumulation loop of the source: walk the table in order, pushing the
label of every signature whose test fires. -/
def collectHits (cs : List Char) : List (String × (List Char → Bool)) → List String
  | [] => []
  | sig :: rest =>
      if sig.2 cs then sig.1 :: collectHits cs rest else collectHits cs rest

/-- ASCII lowercasing of one character (the model of the `/i` flag on the
ASCII signature patterns). -/
def lowerChar (c : Char) : Char :=
  if decide ('A' ≤ c) && decide (c ≤ 'Z') then Char.ofNat (c.toNat + 32) else c

/-- Lowercase a character list. -/
def lowerChars (cs : List Char) : List Char := cs.map lowerChar

/-- Scan a response body against the signature table, returning the
matched labels in table order (source: `detectLfiIndicators`). -/
def detectLfiIndicators (body : String) : List String :=
  collectHits (lowerChars body.data) lfiSignatures

/-! ## The heuristic classifier -/

/-- Detection verdicts (source: the `detection` union type). -/
inductive Detection : Type where
  | CONFIRMED_LFI : Detection
  | POSSIBLE_LFI : Detection
  | SUSPICIOUS : Detection
  | NOT_VULNERABLE : Detection
deriving DecidableEq

/-- Confidence levels (source: the `confidence` union type). -/
inductive Confidence : Type where
  | Low : Confidence
  | Medium : Confidence
  | High : Confidence
deriving DecidableEq

/-- Rule-2 guard: the baseline length is known and positive and the
relative length delta exceeds 30 percent (source: the
`baselineLength !== null && baselineLength > 0` guard and the
`Math.abs(length - baselineLength) / baselineLength > 0.3` test).
The quotient is modelled exactly: for positive `b` the comparison
`|length - b| / b > 3/10` is written denominator-cleared as
`10 * |length - b| > 3 * b`, which `lengthDelta_iff_ratio` below proves
equal to the rational-ratio form. -/
def lengthDeltaSignificant (baselineLength : Option Nat) (length : Nat) : Bool :=
  match baselineLength with
  | some b =>
      decide (0 < b) &&
      decide (10 * ((length : ℤ) - (b : ℤ)).natAbs > 3 * b)
  | none => false

/-- Rule-3 guard: the baseline status is known and differs from the probe
status. -/
def statusDiffers (baselineStatus : Option Nat) (status : Nat) : Bool :=
  match baselineStatus with
  | some s => decide (s ≠ status)
  | none => false

/-- The four-rule heuristic classifier (source: `analyzeLfiHeuristics`).
Rules are tested in order; the first match wins. -/
def analyzeLfiHeuristics (indicators : List String)
    (baselineStatus baselineLength : Option Nat)
    (status length : Nat) : Detection × Confidence :=
  if indicators.length > 0 then (.CONFIRMED_LFI, .High)
  else if lengthDeltaSignificant baselineLength length then
    (.POSSIBLE_LFI, .Medium)
  else if statusDiffers baselineStatus status then (.SUSPICIOUS, .Low)
  else (.NOT_VULNERABLE, .Low)

/-- First-match evaluation of an ordered guard table with a default. -/
def firstMatch {α : Type} : List (Bool × α) → α → α
  | [], d => d
  | (g, v) :: rest, d => if g then v else firstMatch rest d

/-- Modelled from the spec: the classifier as an explicit ordered rule
list evaluated top-down with the first matching rule winning and rule 4
as the default, following the decision-order wording of the spec. -/
def classifySpec (indicators : List String)
    (baselineStatus baselineLength : Option Nat)
    (status length : Nat) : Detection × Confidence :=
  firstMatch
    [(decide (indicators ≠ []), (Detection.CONFIRMED_LFI, Confidence.High)),
     (lengthDeltaSignificant baselineLength length,
       (Detection.POSSIBLE_LFI, Confidence.Medium)),
     (statusDiffers baselineStatus status,
       (Detection.SUSPICIOUS, Confidence.Low))]
    (Detection.NOT_VULNERABLE, Confidence.Low)

/-! ## The payload catalog (source file: lfiPayloads) -/

/-- Category identifiers (source: the `LfiPayloadCategoryId` union). -/
inductive LfiPayloadCategoryId : Type where
  | basicTraversal : LfiPayloadCategoryId
  | deepTraversal : LfiPayloadCategoryId
  | nullByte : LfiPayloadCategoryId
  | encodingBypass : LfiPayloadCategoryId
  | osLinux : LfiPayloadCategoryId
  | osWindows : LfiPayloadCategoryId
deriving DecidableEq

/-- One payload category (source: `LfiPayloadCategory`). -/
structure LfiPayloadCategory : Type where
  id : LfiPayloadCategoryId
  label : String
  description : String
  payloads : List String
deriving DecidableEq

/-- The static categorized payload table (source:
`LFI_PAYLOAD_CATEGORIES`). -/
def LFI_PAYLOAD_CATEGORIES : List LfiPayloadCategory :=
  [{ id := .basicTraversal,
     label := "Basic Traversal",
     description := "Simple directory traversal to common sensitive files",
     payloads :=
       ["../etc/passwd", "../../etc/passwd", "../etc/hosts",
        "../../etc/hosts", "../proc/self/environ",
        "../../proc/self/environ"] },
   { id := .deepTraversal,
     label := "Deep Traversal",
     description := "Deeper traversal chains for robust path resolution",
     payloads :=
       ["../../../../etc/passwd", "../../../../../etc/passwd",
        "../../../../etc/hosts", "../../../../../etc/hosts",
        "../../../../proc/self/environ",
        "../../../../../proc/self/environ",
        "../../../../windows/win.ini",
        "../../../../../windows/win.ini"] },
   { id := .nullByte,
     label := "Null Byte Variations",
     description := "Null byte suffixes to bypass extensions or filters",
     payloads :=
       ["../../etc/passwd%00", "../../etc/passwd%2500",
        "../../../../etc/passwd%00", "../../../../etc/passwd%2500"] },
   { id := .encodingBypass,
     label := "Encoding Bypass",
     description := "URL-encoded and double-encoded traversal sequences",
     payloads :=
       ["..%2f..%2fetc%2fpasswd", "..%2F..%2Fetc%2Fpasswd",
        "%2e%2e/%2e%2e/etc/passwd", "..%252f..%252fetc%252fpasswd",
        "..%c0%af..%c0%afetc%c0%afpasswd"] },
   { id := .osLinux,
     label := "OS-Specific (Linux)",
     description := "Linux-specific sensitive files",
     payloads :=
       ["/etc/passwd", "/etc/shadow", "/etc/hosts",
        "/proc/self/environ", "/proc/version"] },
   { id := .osWindows,
     label := "OS-Specific (Windows)",
     description := "Windows-specific configuration and hosts files",
     payloads :=
       ["C:/Windows/win.ini", "C:/windows/win.ini",
        "C:/Windows/System32/drivers/etc/hosts",
        "C:/windows/system32/drivers/etc/hosts", "C:/boot.ini"] }]

/-- First-seen-order deduplication with an accumulator of already-seen
entries (the model of JavaScript `Array.from(new Set(l))`, which keeps
the first occurrence of each element in insertion order). -/
def dedupFirstAux (seen : List String) : List String → List String
  | [] => []
  | a :: l =>
      if a ∈ seen then dedupFirstAux seen l
      else a :: dedupFirstAux (a :: seen) l

/-- First-seen-order deduplication. -/
def dedupFirst (l : List String) : List String := dedupFirstAux [] l

/-- The categories selected by a category-id list: the whole table when
the list is empty (the falsy test of the source on `categoryIds`), otherwise
the table entries whose id occurs in the list. -/
def usedCategories (categoryIds : List LfiPayloadCategoryId) :
    List LfiPayloadCategory :=
  if categoryIds.length > 0 then
    LFI_PAYLOAD_CATEGORIES.filter (fun c => categoryIds.contains c.id)
  else LFI_PAYLOAD_CATEGORIES

/-- Build the flat deduplicated payload list from the selected categories
(source: `buildLfiPayloadList`; the optional `categoryIds?` parameter is
modelled as a list, with the empty list standing for both `undefined`
and `[]`, which the source treats identically). -/
def buildLfiPayloadList (categoryIds : List LfiPayloadCategoryId) :
    List String :=
  dedupFirst ((usedCategories categoryIds).flatMap (fun c => c.payloads))

/-! ## The URL model

WHATWG `URL` is modelled structurally: an opaque base (scheme, host and
path) plus the ordered query-parameter list, with the `URLSearchParams`
operations the source uses. Percent-encoding of serialized URLs is below
the granularity of the model; a test URL is represented by its structure. -/

/-- A parsed absolute URL: base part plus ordered query list. -/
structure Url : Type where
  base : String
  query : List (String × String)
deriving DecidableEq

/-- Remove every query pair with the given key. -/
def removeKey (q : List (String × String)) (k : String) :
    List (String × String) :=
  q.filter (fun kv => !(kv.1 = k))

/-- The `URLSearchParams.set` operation: replace the value of the first
pair with the key, drop the remaining pairs with the key, or append when
the key is absent. -/
def setParam : List (String × String) → String → String →
    List (String × String)
  | [], k, v => [(k, v)]
  | kv :: rest, k, v =>
      if kv.1 = k then (k, v) :: removeKey rest k
      else kv :: setParam rest k v

/-- The `URLSearchParams.get` operation: the value of the first pair with
the key, or `none`. -/
def getParamValue (q : List (String × String)) (k : String) :
    Option String :=
  (q.find? (fun kv => kv.1 = k)).map (fun kv => kv.2)

/-- Build the ordered test URLs for one parameter (source:
`buildLfiTestUrls`): when the parameter already exists on the base URL it
is `set`, otherwise it is appended as a fresh pair; one test URL per
payload, in payload-list order. -/
def buildLfiTestUrls (baseUrl : Url) (param : String)
    (payloads : List String) : List (Url × String) :=
  let hasParam := (baseUrl.query.map Prod.fst).contains param
  payloads.map (fun p =>
    (if hasParam then { baseUrl with query := setParam baseUrl.query param p }
     else { baseUrl with query := baseUrl.query ++ [(param, p)] }, p))

/-! ## The scan orchestrator (source: `handleRunLfi`) -/

/-- An HTTP response as the scan observes it. -/
structure Response : Type where
  status : Nat
  body : String
deriving DecidableEq

/-- The `Response.ok` flag of the Fetch API: status in the range
200 to 299. -/
def Response.ok (r : Response) : Bool :=
  decide (200 ≤ r.status) && decide (r.status ≤ 299)

/-- A fetch oracle: the network as a function from URLs to either a
resolved response or `none` for a network failure / timeout / abort. -/
def Fetch : Type := Url → Option Response

/-- One recorded probe (source: `LfiSingleResult`). -/
structure ProbeResult : Type where
  parameter : String
  originalValue : Option String
  testedUrl : Url
  payload : String
  status : Nat
  contentLength : Nat
  indicators : List String
  vulnerable : Bool
  detection : Detection
  confidence : Confidence
  sample : String
deriving DecidableEq

/-- Per-parameter summary entry (source: the `parametersTested` entries of
`LfiScanSummary`). -/
structure ParamSummary : Type where
  name : String
  originalValue : Option String
  totalTests : Nat
  vulnerableCount : Nat
deriving DecidableEq

/-- The scan summary (source: `LfiScanSummary`). -/
structure LfiScanSummary : Type where
  baseUrl : Url
  parametersTested : List ParamSummary
  totalTests : Nat
  vulnerableCount : Nat
  results : List ProbeResult
deriving DecidableEq

/-- Scan-aborting error of the modelled orchestrator entry point: the
empty-parameter-set failure (source: the early return with the
no-parameters message; URL parsing happens before the modelled boundary). -/
inductive ScanError : Type where
  | noParametersFound : ScanError
deriving DecidableEq

/-- The first `n` characters of a string (the model of JavaScript
`String.prototype.slice(0, n)` for the body sample). -/
def takeStr (s : String) (n : Nat) : String := { data := s.data.take n }

/-- The vulnerable flag of one probe: the detection verdict is anything
other than `NOT_VULNERABLE` (source: the strict inequality of `detection` with the `NOT_VULNERABLE` literal). -/
def vulnerableFlag (d : Detection) : Bool :=
  match d with
  | .NOT_VULNERABLE => false
  | _ => true

/-- Establish the baseline (source: the baseline fetch block): on a
resolved response record its status and the length of its body — the
body being replaced by the empty string when the response is not ok — and
on a failed fetch leave both fields `none`. -/
def fetchBaseline (fetch : Fetch) (target : Url) : Option Nat × Option Nat :=
  match fetch target with
  | none => (none, none)
  | some res =>
      (some res.status, some (if res.ok then res.body else "").length)

/-- One probe of one test URL (source: the body of the inner payload
loop): fetch, read the body (empty when not ok), detect indicators,
classify, and record the probe; a failed fetch records nothing. -/
def probeOne (fetch : Fetch) (baselineStatus baselineLength : Option Nat)
    (originalValue : Option String) (param payload : String) (testUrl : Url) :
    Option ProbeResult :=
  match fetch testUrl with
  | none => none
  | some res =>
      let bodyText := if res.ok then res.body else ""
      let indicators := detectLfiIndicators bodyText
      let dc := analyzeLfiHeuristics indicators baselineStatus baselineLength
        res.status bodyText.length
      some
        { parameter := param
          originalValue := originalValue
          testedUrl := testUrl
          payload := payload
          status := res.status
          contentLength := bodyText.length
          indicators := indicators
          vulnerable := vulnerableFlag dc.1
          detection := dc.1
          confidence := dc.2
          sample := takeStr bodyText 300 }

/-- The inner payload sweep for one parameter: the recorded probes in
payload order together with the running vulnerable counter (source: the
`for` loop over `testUrls` with `paramVulnerableCount`). -/
def sweepParam (fetch : Fetch) (baselineStatus baselineLength : Option Nat)
    (originalValue : Option String) (param : String) :
    List (Url × String) → List ProbeResult × Nat
  | [] => ([], 0)
  | tp :: rest =>
      match probeOne fetch baselineStatus baselineLength originalValue
        param tp.2 tp.1 with
      | none =>
          sweepParam fetch baselineStatus baselineLength originalValue
            param rest
      | some r =>
          (r :: (sweepParam fetch baselineStatus baselineLength originalValue
              param rest).1,
            (if r.vulnerable then 1 else 0) +
              (sweepParam fetch baselineStatus baselineLength originalValue
                param rest).2)

/-- The outer parameter sweep: all recorded probes in parameter-major /
payload-minor order, together with the per-parameter summaries (source:
the `for` loop over `paramsToTest`; the original value of each parameter is
the `URLSearchParams.get` lookup stored in `originalValues`). -/
def sweepAll (fetch : Fetch) (baselineStatus baselineLength : Option Nat)
    (target : Url) (payloads : List String) :
    List String → List ProbeResult × List ParamSummary
  | [] => ([], [])
  | param :: rest =>
      ((sweepParam fetch baselineStatus baselineLength
          (getParamValue target.query param) param
          (buildLfiTestUrls target param payloads)).1 ++
        (sweepAll fetch baselineStatus baselineLength target payloads
          rest).1,
        { name := param
          originalValue := getParamValue target.query param
          totalTests := (buildLfiTestUrls target param payloads).length
          vulnerableCount :=
            (sweepParam fetch baselineStatus baselineLength
              (getParamValue target.query param) param
              (buildLfiTestUrls target param payloads)).2 } ::
          (sweepAll fetch baselineStatus baselineLength target payloads
            rest).2)

/-- The model of JavaScript `String.prototype.trim`: drop leading and
trailing whitespace (ASCII whitespace model). -/
def trimStr (s : String) : String :=
  ⟨((s.data.dropWhile Char.isWhitespace).reverse.dropWhile
    Char.isWhitespace).reverse⟩

/-- Parameter selection (source: the `paramsToTest` computation): an
explicitly supplied non-blank parameter name is tested alone; otherwise
the query-string keys of the target URL are auto-discovered, trimmed,
blank names dropped, and deduplicated in first-seen order. -/
def selectParams (target : Url) (lfiParam : String) : List String :=
  if trimStr lfiParam ≠ "" then [trimStr lfiParam]
  else
    dedupFirst
      (((target.query.map Prod.fst).map trimStr).filter
        (fun n => decide (n.length > 0)))

/-- The scan orchestrator (source: `handleRunLfi` from the parameter
selection onward): fail fast with `noParametersFound` on an empty
parameter set before any fetch; otherwise establish the baseline once,
sweep the parameter-by-payload matrix, and aggregate the summary with
the planned matrix size as `totalTests` and the count of vulnerable
recorded probes as `vulnerableCount`. -/
def runLfiScan (fetch : Fetch) (target : Url) (lfiParam : String)
    (payloads : List String) : Except ScanError LfiScanSummary :=
  if (selectParams target lfiParam).isEmpty then .error .noParametersFound
  else
    .ok
      { baseUrl := target
        parametersTested :=
          (sweepAll fetch (fetchBaseline fetch target).1
            (fetchBaseline fetch target).2 target payloads
            (selectParams target lfiParam)).2
        totalTests := (selectParams target lfiParam).length * payloads.length
        vulnerableCount :=
          ((sweepAll fetch (fetchBaseline fetch target).1
            (fetchBaseline fetch target).2 target payloads
            (selectParams target lfiParam)).1.filter
              (fun r => r.vulnerable)).length
        results :=
          (sweepAll fetch (fetchBaseline fetch target).1
            (fetchBaseline fetch target).2 target payloads
            (selectParams target lfiParam)).1 }

/-! ## Concrete fixtures used by the witness theorems -/

/-- Example target URL with one query parameter. -/
def exUrl : Url :=
  { base := "https://example.com/index.php", query := [("file", "home.php")] }

/-- Example target URL with no query parameters. -/
def exUrlNoQuery : Url := { base := "https://example.com/", query := [] }

/-- Example target URL with two query parameters. -/
def exUrlTwo : Url :=
  { base := "https://example.com/p", query := [("a", "1"), ("b", "2")] }

/-- Oracle failing exactly on the test URL carrying payload `b`. -/
def exFetchPartial : Fetch := fun u =>
  if u.query = [("file", "b")] then none
  else some { status := 200, body := "hello" }

/-- Oracle always answering with a passwd-fingerprint body. -/
def exFetchPasswd : Fetch :=
  fun _ => some { status := 200, body := "root:x:0:0:" }

/-- Oracle on which every fetch fails. -/
def exFetchNone : Fetch := fun _ => none

/-- Oracle always answering a non-ok response with a non-empty body. -/
def exFetch404 : Fetch :=
  fun _ => some { status := 404, body := "root:x:0:0:" }

/-- Placeholder summary used by `okSummary`. -/
def emptySummary : LfiScanSummary :=
  { baseUrl := { base := "", query := [] }, parametersTested := [],
    totalTests := 0, vulnerableCount := 0, results := [] }

/-- Extract the summary of a successful scan. -/
def okSummary (e : Except ScanError LfiScanSummary) : LfiScanSummary :=
  match e with
  | .ok s => s
  | .error _ => emptySummary

/-- Summary of the 1-parameter, 3-payload scan with one failing fetch. -/
def exScanPartial : LfiScanSummary :=
  okSummary (runLfiScan exFetchPartial exUrl "file" ["a", "b", "c"])

/-- Summary of a scan hitting the passwd fingerprint. -/
def exScanPasswd : LfiScanSummary :=
  okSummary (runLfiScan exFetchPasswd exUrl "" ["/etc/passwd"])

/-- Summary of a two-parameter, two-payload scan. -/
def exScanTwo : LfiScanSummary :=
  okSummary (runLfiScan exFetchPasswd exUrlTwo "" ["p1", "p2"])

/-- Placeholder probe used by `exProbe404`. -/
def defaultProbe : ProbeResult :=
  { parameter := "", originalValue := none,
    testedUrl := { base := "", query := [] }, payload := "", status := 0,
    contentLength := 0, indicators := [], vulnerable := false,
    detection := .NOT_VULNERABLE, confidence := .Low, sample := "" }

/-- The probe recorded for a non-ok response under a positive baseline. -/
def exProbe404 : ProbeResult :=
  (probeOne exFetch404 (some 200) (some 100) none "file" "p" exUrl).getD
    defaultProbe

/-! ## Helper lemmas -/

/-- The denominator-cleared rule-2 guard coincides with the rational
ratio comparison of the spec: `|length - b| / b > 3/10`. -/
theorem lengthDelta_iff_ratio (b len : Nat) :
    lengthDeltaSignificant (some b) len = true ↔
      0 < b ∧ (((len : ℤ) - (b : ℤ)).natAbs : ℚ) / (b : ℚ) > 3 / 10 := by
  simp only [lengthDeltaSignificant, Bool.and_eq_true, decide_eq_true_eq]
  constructor
  · rintro ⟨hb, h⟩
    have hbq : (0 : ℚ) < (b : ℚ) := by exact_mod_cast hb
    refine ⟨hb, ?_⟩
    rw [gt_iff_lt, div_lt_div_iff₀ (by norm_num) hbq]
    have h3 : 3 * b < ((len : ℤ) - (b : ℤ)).natAbs * 10 := by omega
    exact_mod_cast h3
  · rintro ⟨hb, h⟩
    have hbq : (0 : ℚ) < (b : ℚ) := by exact_mod_cast hb
    rw [gt_iff_lt, div_lt_div_iff₀ (by norm_num) hbq] at h
    have h3 : 3 * b < ((len : ℤ) - (b : ℤ)).natAbs * 10 := by exact_mod_cast h
    exact ⟨hb, by omega⟩

/-- The vulnerable flag is the decision of `detection ≠ NOT_VULNERABLE`. -/
theorem vulnerableFlag_eq (d : Detection) :
    vulnerableFlag d = decide (d ≠ Detection.NOT_VULNERABLE) := by
  cases d <;> rfl

/-- With no indicators the classifier never returns `CONFIRMED_LFI`. -/
theorem analyze_empty_ne_confirmed (bS bL : Option Nat) (st len : Nat) :
    (analyzeLfiHeuristics [] bS bL st len).1 ≠ Detection.CONFIRMED_LFI := by
  simp only [analyzeLfiHeuristics, List.length_nil, gt_iff_lt,
    lt_self_iff_false, if_false]
  split
  · simp
  · split <;> simp

/-- With no indicators, a known positive baseline length and a
zero-length body, the classifier returns `POSSIBLE_LFI` with `Medium`
confidence: the delta ratio is 1. -/
theorem analyze_empty_body_pos_baseline (bS : Option Nat) (L st : Nat)
    (hL : 0 < L) :
    analyzeLfiHeuristics [] bS (some L) st 0 =
      (Detection.POSSIBLE_LFI, Confidence.Medium) := by
  have hsig : lengthDeltaSignificant (some L) 0 = true := by
    simp only [lengthDeltaSignificant, Bool.and_eq_true, decide_eq_true_eq]
    omega
  simp [analyzeLfiHeuristics, hsig]

/-- The empty body matches no signature. -/
theorem detect_empty : detectLfiIndicators "" = [] := by decide

/-- The accumulation loop of `detectLfiIndicators` is the in-order filter
of the signature table. -/
theorem collectHits_eq_filter (cs : List Char) :
    ∀ l : List (String × (List Char → Bool)),
      collectHits cs l = (l.filter (fun sig => sig.2 cs)).map
        (fun sig => sig.1) := by
  intro l
  induction l with
  | nil => rfl
  | cons s rest ih =>
      rw [collectHits, List.filter_cons]
      cases h : s.2 cs <;> simp [h, ih]

/-- Membership in the deduplication accumulator loop. -/
theorem dedupFirstAux_mem (a : String) :
    ∀ (l seen : List String),
      a ∈ dedupFirstAux seen l ↔ a ∈ l ∧ a ∉ seen := by
  intro l
  induction l with
  | nil => intro seen; simp [dedupFirstAux]
  | cons b rest ih =>
      intro seen
      rw [dedupFirstAux]
      split
      · rename_i hb
        rw [ih]
        constructor
        · rintro ⟨h1, h2⟩
          exact ⟨List.mem_cons_of_mem _ h1, h2⟩
        · rintro ⟨h1, h2⟩
          rcases List.mem_cons.1 h1 with h1 | h1
          · exact absurd (h1 ▸ hb) h2
          · exact ⟨h1, h2⟩
      · rename_i hb
        simp only [List.mem_cons, ih]
        constructor
        · rintro (rfl | ⟨h1, h2⟩)
          · exact ⟨Or.inl rfl, hb⟩
          · exact ⟨Or.inr h1, fun hs => h2 (Or.inr hs)⟩
        · rintro ⟨rfl | h1, h2⟩
          · exact Or.inl rfl
          · by_cases hab : a = b
            · exact Or.inl hab
            · refine Or.inr ⟨h1, ?_⟩
              rintro (hs | hs)
              · exact hab hs
              · exact h2 hs

/-- The deduplication loop yields a duplicate-free list. -/
theorem dedupFirstAux_nodup :
    ∀ (l seen : List String), (dedupFirstAux seen l).Nodup := by
  intro l
  induction l with
  | nil => intro seen; simp [dedupFirstAux]
  | cons b rest ih =>
      intro seen
      rw [dedupFirstAux]
      split
      · exact ih seen
      · refine List.nodup_cons.2 ⟨fun hmem => ?_, ih (b :: seen)⟩
        exact ((dedupFirstAux_mem b rest (b :: seen)).1 hmem).2
          (List.mem_cons_self b seen)

/-- Membership is preserved by first-seen deduplication. -/
theorem dedupFirst_mem (a : String) (l : List String) :
    a ∈ dedupFirst l ↔ a ∈ l := by
  rw [dedupFirst, dedupFirstAux_mem]
  simp

/-- First-seen deduplication yields a duplicate-free list. -/
theorem dedupFirst_nodup (l : List String) : (dedupFirst l).Nodup :=
  dedupFirstAux_nodup l []

/-- The vulnerable flag of a recorded probe is computed from its own
detection verdict. -/
theorem probeOne_some_vulnerable (fetch : Fetch)
    (bS bL : Option Nat) (ov : Option String) (param payload : String)
    (tu : Url) (r : ProbeResult)
    (h : probeOne fetch bS bL ov param payload tu = some r) :
    r.vulnerable = vulnerableFlag r.detection := by
  unfold probeOne at h
  cases hf : fetch tu with
  | none => rw [hf] at h; exact Option.noConfusion h
  | some res =>
      rw [hf] at h
      simp only [Option.some.injEq] at h
      subst h
      rfl

/-- The recorded-probe list of the inner sweep is the in-order
`filterMap` of `probeOne` over the test URLs. -/
theorem sweepParam_fst (fetch : Fetch) (bS bL : Option Nat)
    (ov : Option String) (param : String) :
    ∀ l : List (Url × String),
      (sweepParam fetch bS bL ov param l).1 =
        l.filterMap (fun tp => probeOne fetch bS bL ov param tp.2 tp.1) := by
  intro l
  induction l with
  | nil => rfl
  | cons tp rest ih =>
      rw [sweepParam, List.filterMap_cons]
      cases h : probeOne fetch bS bL ov param tp.2 tp.1 <;> simp [h, ih]

/-- The running vulnerable counter of the inner sweep counts the
vulnerable recorded probes. -/
theorem sweepParam_snd (fetch : Fetch) (bS bL : Option Nat)
    (ov : Option String) (param : String) :
    ∀ l : List (Url × String),
      (sweepParam fetch bS bL ov param l).2 =
        (sweepParam fetch bS bL ov param l).1.countP
          (fun r => r.vulnerable) := by
  intro l
  induction l with
  | nil => rfl
  | cons tp rest ih =>
      rw [sweepParam]
      cases h : probeOne fetch bS bL ov param tp.2 tp.1 with
      | none => simpa using ih
      | some r =>
          simp only [List.countP_cons, ih]
          cases hr : r.vulnerable <;> simp [hr, Nat.add_comm]

/-- The recorded-probe list of the outer sweep is the parameter-major /
payload-minor `flatMap` of the per-pair probes. -/
theorem sweepAll_fst (fetch : Fetch) (bS bL : Option Nat) (target : Url)
    (payloads : List String) :
    ∀ params : List String,
      (sweepAll fetch bS bL target payloads params).1 =
        params.flatMap (fun p =>
          (buildLfiTestUrls target p payloads).filterMap (fun tp =>
            probeOne fetch bS bL (getParamValue target.query p) p
              tp.2 tp.1)) := by
  intro params
  induction params with
  | nil => rfl
  | cons p rest ih =>
      rw [sweepAll, List.flatMap_cons]
      rw [sweepParam_fst, ih]

/-- The per-parameter vulnerable counters of the outer sweep sum to the
count of vulnerable recorded probes. -/
theorem sweepAll_count (fetch : Fetch) (bS bL : Option Nat) (target : Url)
    (payloads : List String) :
    ∀ params : List String,
      ((sweepAll fetch bS bL target payloads params).2.map
        (fun q => q.vulnerableCount)).sum =
        (sweepAll fetch bS bL target payloads params).1.countP
          (fun r => r.vulnerable) := by
  intro params
  induction params with
  | nil => rfl
  | cons p rest ih =>
      rw [sweepAll]
      simp only [List.map_cons, List.sum_cons, List.countP_append, ih,
        sweepParam_snd]

/-- Field-level characterization of a successful scan. -/
theorem runLfiScan_ok (fetch : Fetch) (target : Url) (lp : String)
    (ps : List String) (s : LfiScanSummary)
    (h : runLfiScan fetch target lp ps = .ok s) :
    s.totalTests = (selectParams target lp).length * ps.length ∧
    s.results = (sweepAll fetch (fetchBaseline fetch target).1
      (fetchBaseline fetch target).2 target ps (selectParams target lp)).1 ∧
    s.parametersTested = (sweepAll fetch (fetchBaseline fetch target).1
      (fetchBaseline fetch target).2 target ps (selectParams target lp)).2 ∧
    s.vulnerableCount =
      (s.results.filter (fun r => r.vulnerable)).length := by
  unfold runLfiScan at h
  split at h
  · exact Except.noConfusion h
  · injection h with h
    subst h
    exact ⟨rfl, rfl, rfl, rfl⟩

/-- Every probe recorded by the outer sweep has a vulnerable flag that
decides `detection ≠ NOT_VULNERABLE`. -/
theorem mem_sweepAll_vulnerable (fetch : Fetch) (bS bL : Option Nat)
    (target : Url) (payloads : List String) (params : List String)
    (r : ProbeResult)
    (hr : r ∈ (sweepAll fetch bS bL target payloads params).1) :
    r.vulnerable = decide (r.detection ≠ Detection.NOT_VULNERABLE) := by
  rw [sweepAll_fst] at hr
  rw [List.mem_flatMap] at hr
  obtain ⟨p, _, hr⟩ := hr
  rw [List.mem_filterMap] at hr
  obtain ⟨tp, _, hp⟩ := hr
  rw [probeOne_some_vulnerable fetch bS bL _ p tp.2 tp.1 r hp]
  exact vulnerableFlag_eq r.detection

/-! ## Claim theorems -/

/-- C1: the classifier evaluates its four rules in a fixed order with
the first matching rule winning — it coincides with the explicit
ordered rule list (`classifySpec`) on every input — and in particular
`indicators = ["etc/passwd"]`, `baselineLength = 100`, `length = 1000`
yields `CONFIRMED_LFI` with `High` confidence for every baseline status
and probe status, even though the length-delta guard of rule 2 also
fires there. -/
theorem classifier_rule_order :
    (∀ (indicators : List String) (bS bL : Option Nat) (st len : Nat),
      analyzeLfiHeuristics indicators bS bL st len =
        classifySpec indicators bS bL st len) ∧
    (∀ (bS : Option Nat) (st : Nat),
      analyzeLfiHeuristics ["etc/passwd"] bS (some 100) st 1000 =
        (Detection.CONFIRMED_LFI, Confidence.High)) ∧
    lengthDeltaSignificant (some 100) 1000 = true := by
  refine ⟨?_, ?_, by decide⟩
  · intro indicators bS bL st len
    cases indicators <;>
      simp [analyzeLfiHeuristics, classifySpec, firstMatch]
  · intro bS st
    simp [analyzeLfiHeuristics]

/-- C2: the `totalTests` of a successful scan is the planned matrix size:
the number of selected parameters times the number of payloads,
independent of how many individual probe fetches succeed. -/
theorem lfi_total_tests (fetch : Fetch) (target : Url) (lp : String)
    (ps : List String) (s : LfiScanSummary)
    (h : runLfiScan fetch target lp ps = .ok s) :
    s.totalTests = (selectParams target lp).length * ps.length :=
  (runLfiScan_ok fetch target lp ps s h).1

/-- C2 witness: one parameter with a 3-payload list where the fetch for
payload `b` fails: `totalTests` is 3 while only 2 probes are recorded. -/
theorem lfi_total_tests_witness :
    runLfiScan exFetchPartial exUrl "file" ["a", "b", "c"] =
      .ok exScanPartial ∧
    exScanPartial.totalTests = 3 ∧ exScanPartial.results.length = 2 := by
  refine ⟨rfl, ?_, by decide⟩
  have h := lfi_total_tests exFetchPartial exUrl "file" ["a", "b", "c"]
    exScanPartial rfl
  rw [h]
  decide

/-- C3: the `vulnerableCount` of a successful scan equals the number of
recorded probes whose detection is not `NOT_VULNERABLE`, and also equals
the sum of the per-parameter `vulnerableCount` fields. -/
theorem lfi_vulnerable_count (fetch : Fetch) (target : Url) (lp : String)
    (ps : List String) (s : LfiScanSummary)
    (h : runLfiScan fetch target lp ps = .ok s) :
    s.vulnerableCount = s.results.countP
      (fun r => decide (r.detection ≠ Detection.NOT_VULNERABLE)) ∧
    s.vulnerableCount =
      (s.parametersTested.map (fun q => q.vulnerableCount)).sum := by
  obtain ⟨-, hres, hpar, hvc⟩ := runLfiScan_ok fetch target lp ps s h
  constructor
  · rw [hvc, ← List.countP_eq_length_filter]
    apply List.countP_congr
    intro r hr
    rw [hres] at hr
    rw [mem_sweepAll_vulnerable _ _ _ _ _ _ r hr]
  · rw [hvc, hpar, hres, ← List.countP_eq_length_filter, sweepAll_count]

/-- C3 witness: a scan recording one `CONFIRMED_LFI` probe has
`vulnerableCount` 1, equal to the non-`NOT_VULNERABLE` count and to the
per-parameter sum. -/
theorem lfi_vulnerable_count_witness :
    runLfiScan exFetchPasswd exUrl "" ["/etc/passwd"] = .ok exScanPasswd ∧
    exScanPasswd.vulnerableCount = 1 ∧
    exScanPasswd.vulnerableCount = exScanPasswd.results.countP
      (fun r => decide (r.detection ≠ Detection.NOT_VULNERABLE)) ∧
    exScanPasswd.vulnerableCount =
      (exScanPasswd.parametersTested.map (fun q => q.vulnerableCount)).sum := by
  have h := lfi_vulnerable_count exFetchPasswd exUrl "" ["/etc/passwd"]
    exScanPasswd rfl
  exact ⟨rfl, by decide, h.1, h.2⟩

/-- C4: every probe recorded by a successful scan has
`vulnerable == (detection ≠ NOT_VULNERABLE)`. -/
theorem probe_vulnerable_flag (fetch : Fetch) (target : Url) (lp : String)
    (ps : List String) (s : LfiScanSummary)
    (h : runLfiScan fetch target lp ps = .ok s) :
    s.results.all (fun r =>
      r.vulnerable == decide (r.detection ≠ Detection.NOT_VULNERABLE)) =
      true := by
  obtain ⟨-, hres, -, -⟩ := runLfiScan_ok fetch target lp ps s h
  rw [List.all_eq_true]
  intro r hr
  rw [hres] at hr
  rw [beq_iff_eq]
  exact mem_sweepAll_vulnerable _ _ _ _ _ _ r hr

/-- C4 witness: the invariant evaluated on a concrete scan that records
a vulnerable probe. -/
theorem probe_vulnerable_flag_witness :
    runLfiScan exFetchPasswd exUrl "" ["/etc/passwd"] = .ok exScanPasswd ∧
    exScanPasswd.results.all (fun r =>
      r.vulnerable == decide (r.detection ≠ Detection.NOT_VULNERABLE)) =
      true :=
  ⟨rfl, probe_vulnerable_flag exFetchPasswd exUrl "" ["/etc/passwd"]
    exScanPasswd rfl⟩

/-- C5: when the baseline fetch fails both baseline fields are `none`,
and classification with both baseline inputs `none` skips rules 2 and 3:
it returns `CONFIRMED_LFI`/`High` exactly when indicators are non-empty
and `NOT_VULNERABLE`/`Low` otherwise. -/
theorem baseline_failure_degrades :
    (∀ (fetch : Fetch) (target : Url), fetch target = none →
      fetchBaseline fetch target = (none, none)) ∧
    (∀ (indicators : List String) (st len : Nat),
      analyzeLfiHeuristics indicators none none st len =
        if indicators.length > 0 then
          (Detection.CONFIRMED_LFI, Confidence.High)
        else (Detection.NOT_VULNERABLE, Confidence.Low)) := by
  constructor
  · intro fetch target h
    simp [fetchBaseline, h]
  · intro indicators st len
    simp [analyzeLfiHeuristics, lengthDeltaSignificant, statusDiffers]

/-- C5 witness: the failing oracle yields a `(none, none)` baseline, and
the degraded classifier is evaluated on both branches. -/
theorem baseline_failure_degrades_witness :
    fetchBaseline exFetchNone exUrl = (none, none) ∧
    analyzeLfiHeuristics ["etc/passwd"] none none 200 50 =
      (Detection.CONFIRMED_LFI, Confidence.High) ∧
    analyzeLfiHeuristics [] none none 500 50 =
      (Detection.NOT_VULNERABLE, Confidence.Low) := by
  refine ⟨baseline_failure_degrades.1 exFetchNone exUrl rfl, ?_, ?_⟩
  · have h := baseline_failure_degrades.2 ["etc/passwd"] 200 50
    simpa using h
  · have h := baseline_failure_degrades.2 [] 500 50
    simpa using h

/-- C6: `detectLfiIndicators` returns, in the declaration order of the
signature table, the label of every signature whose regex matches the
body — all signatures are evaluated, so labels can co-occur — and the
body `"root:x:0:0:daemon:/bin/sh"` yields the label `"etc/passwd"`. -/
theorem detect_indicators_table :
    (∀ body : String, detectLfiIndicators body =
      ((lfiSignatures.filter (fun sig => sig.2 (lowerChars body.data))).map
        (fun sig => sig.1))) ∧
    "etc/passwd" ∈ detectLfiIndicators "root:x:0:0:daemon:/bin/sh" ∧
    detectLfiIndicators "<?php [fonts]" =
      ["Windows win.ini", "PHP source"] :=
  ⟨fun body => collectHits_eq_filter (lowerChars body.data) lfiSignatures,
    by decide, by decide⟩

/-- C7: the recorded probes of a successful scan are exactly the
parameter-major, payload-minor sequence of per-pair probes over the test
URLs, and each test URL sets the parameter when it already exists on the
target URL and appends it otherwise. -/
theorem scan_result_order (fetch : Fetch) (target : Url) (lp : String)
    (ps : List String) (s : LfiScanSummary)
    (h : runLfiScan fetch target lp ps = .ok s) :
    s.results = (selectParams target lp).flatMap (fun p =>
      (buildLfiTestUrls target p ps).filterMap (fun tp =>
        probeOne fetch (fetchBaseline fetch target).1
          (fetchBaseline fetch target).2 (getParamValue target.query p) p
          tp.2 tp.1)) ∧
    (∀ p : String, buildLfiTestUrls target p ps = ps.map (fun payload =>
      (if (target.query.map Prod.fst).contains p then
        { target with query := setParam target.query p payload }
      else { target with query := target.query ++ [(p, payload)] },
        payload))) := by
  obtain ⟨-, hres, -, -⟩ := runLfiScan_ok fetch target lp ps s h
  exact ⟨by rw [hres, sweepAll_fst], fun p => rfl⟩

/-- C7 witness: a two-parameter, two-payload scan records probes in
the order a/p1, a/p2, b/p1, b/p2 and matches the flatMap
characterization. -/
theorem scan_result_order_witness :
    runLfiScan exFetchPasswd exUrlTwo "" ["p1", "p2"] = .ok exScanTwo ∧
    exScanTwo.results = (selectParams exUrlTwo "").flatMap (fun p =>
      (buildLfiTestUrls exUrlTwo p ["p1", "p2"]).filterMap (fun tp =>
        probeOne exFetchPasswd (fetchBaseline exFetchPasswd exUrlTwo).1
          (fetchBaseline exFetchPasswd exUrlTwo).2
          (getParamValue exUrlTwo.query p) p tp.2 tp.1)) ∧
    exScanTwo.results.map (fun r => (r.parameter, r.payload)) =
      [("a", "p1"), ("a", "p2"), ("b", "p1"), ("b", "p2")] :=
  ⟨rfl, (scan_result_order exFetchPasswd exUrlTwo "" ["p1", "p2"]
    exScanTwo rfl).1, by decide⟩

/-- C8: an explicit non-blank parameter name is tested alone; otherwise
the parameters are the query keys of the target URL, trimmed, blanks
dropped and deduplicated; and an empty parameter set makes the scan fail
with `noParametersFound` for every fetch oracle — so before any network
request. -/
theorem param_selection :
    (∀ (target : Url) (lp : String), trimStr lp ≠ "" →
      selectParams target lp = [trimStr lp]) ∧
    (∀ (target : Url) (lp : String), trimStr lp = "" →
      selectParams target lp = dedupFirst
        (((target.query.map Prod.fst).map trimStr).filter
          (fun n => decide (n.length > 0)))) ∧
    (∀ (fetch : Fetch) (target : Url) (lp : String) (ps : List String),
      selectParams target lp = [] →
      runLfiScan fetch target lp ps = .error .noParametersFound) := by
  refine ⟨?_, ?_, ?_⟩
  · intro target lp h
    simp [selectParams, h]
  · intro target lp h
    simp [selectParams, h]
  · intro fetch target lp ps h
    unfold runLfiScan
    rw [h]
    rfl

/-- C8 witness: the explicit name `"file"` is tested alone; a target
without query parameters and no explicit name yields no parameters and
the scan fails with `noParametersFound` without consulting the oracle. -/
theorem param_selection_witness :
    selectParams exUrl "file" = ["file"] ∧
    selectParams exUrlNoQuery "" = [] ∧
    runLfiScan exFetchPasswd exUrlNoQuery "" ["x"] =
      .error .noParametersFound := by
  refine ⟨?_, by decide,
    param_selection.2.2 exFetchPasswd exUrlNoQuery "" ["x"] (by decide)⟩
  have h := param_selection.1 exUrl "file" (by decide)
  rw [h]
  decide

/-- C9: for every category selection `buildLfiPayloadList` returns a
duplicate-free sequence whose entries all come from the selected
payload lists of the selected categories (all for the empty selection),
formed by flattening the categories in declaration order and then
deduplicating in first-seen order. -/
theorem payload_catalog_props :
    ∀ ids : List LfiPayloadCategoryId,
      (buildLfiPayloadList ids).Nodup ∧
      ((buildLfiPayloadList ids).all (fun p =>
        (usedCategories ids).any (fun c => c.payloads.contains p)) =
        true) ∧
      buildLfiPayloadList ids =
        dedupFirst ((usedCategories ids).flatMap (fun c => c.payloads)) := by
  intro ids
  refine ⟨dedupFirst_nodup _, ?_, rfl⟩
  rw [List.all_eq_true]
  intro p hp
  have hp2 : p ∈ (usedCategories ids).flatMap (fun c => c.payloads) :=
    (dedupFirst_mem p _).1 hp
  rw [List.mem_flatMap] at hp2
  obtain ⟨c, hc, hpc⟩ := hp2
  rw [List.any_eq_true]
  refine ⟨c, hc, ?_⟩
  simpa using hpc

/-- C10: a probe whose fetch resolves with a non-ok response is recorded
with an empty body: content length 0, no indicators, empty sample; it is
never `CONFIRMED_LFI`, and whenever the baseline length is known and
positive it is classified `POSSIBLE_LFI` with `Medium` confidence since
the length-delta ratio is 1. -/
theorem non_ok_probe (fetch : Fetch) (bS bL : Option Nat)
    (ov : Option String) (param payload : String) (tu : Url)
    (res : Response) (h1 : fetch tu = some res) (h2 : res.ok = false) :
    ∃ r, probeOne fetch bS bL ov param payload tu = some r ∧
      r.status = res.status ∧ r.contentLength = 0 ∧ r.indicators = [] ∧
      r.sample = "" ∧ r.detection ≠ Detection.CONFIRMED_LFI ∧
      (∀ L, bL = some L → 0 < L →
        r.detection = Detection.POSSIBLE_LFI ∧
        r.confidence = Confidence.Medium) := by
  unfold probeOne
  rw [h1]
  simp only [h2, Bool.false_eq_true, if_false]
  refine ⟨_, rfl, rfl, rfl, ?_, rfl, ?_, ?_⟩
  · exact detect_empty
  · rw [detect_empty]
    exact analyze_empty_ne_confirmed bS bL res.status 0
  · intro L hL hpos
    subst hL
    rw [detect_empty]
    rw [show ("" : String).length = 0 from rfl]
    rw [analyze_empty_body_pos_baseline bS L res.status hpos]
    exact ⟨rfl, rfl⟩

/-- C10 witness: a 404 response whose body carries a passwd fingerprint
is recorded with an empty body and classified `POSSIBLE_LFI`/`Medium`
under the baseline length 100. -/
theorem non_ok_probe_witness :
    probeOne exFetch404 (some 200) (some 100) none "file" "p" exUrl =
      some exProbe404 ∧
    exProbe404.status = 404 ∧ exProbe404.contentLength = 0 ∧
    exProbe404.indicators = [] ∧ exProbe404.sample = "" ∧
    exProbe404.detection = Detection.POSSIBLE_LFI ∧
    exProbe404.confidence = Confidence.Medium := by
  obtain ⟨r, hr, hst, hc, hi, hs, -, hpos⟩ :=
    non_ok_probe exFetch404 (some 200) (some 100) none "file" "p" exUrl
      { status := 404, body := "root:x:0:0:" } rfl (by decide)
  obtain ⟨hd, hcf⟩ := hpos 100 rfl (by decide)
  have hre : exProbe404 = r := by
    rw [exProbe404, hr]
    rfl
  rw [hre]
  exact ⟨hr, hst, hc, hi, hs, hd, hcf⟩

end VulnWebExtn
